import Mathlib

/-!
Verification development for the Apna SAHE backend.

The repository is a thin glue layer over hosted platform services
(an auth provider, a document database, blob storage and a media host).
We embed the service classes and the single HTTP endpoint shallowly:

* documents become Lean structures; a JS field that the code may leave
  undefined is an `Option`;
* the document database becomes an explicit `World` record threaded
  through the operations;
* every fallible platform call (auth, storage upload, media-host destroy,
  transaction commit) becomes an `Except JsError _` parameter, so an
  operation is a pure function of its inputs and of the platform outcomes;
* the database transaction primitive is modelled faithfully: only
  `transaction.update` and `transaction.delete` calls are buffered and
  applied atomically on commit; a plain `addDoc` or `deleteObject`
  performed inside the callback executes immediately and survives an
  aborted transaction.
-/

abbrev JsError := String

/-- A JS `File` object as used by `NotesService.uploadNote`. -/
structure JsFile where
  type : String
  size : Int
deriving DecidableEq, Repr

/-- A user document in the `users` collection, with the fields written by
`AuthService.signUpStudent` / `AuthService.createAdmin`.  `points` and
`notesUploaded` are `Option` because the code guards reads with
a fallback to 0 on a missing field. -/
structure UserDoc where
  uid : String
  name : String
  email : String
  role : String
  branch : String
  semester : String
  points : Option Int
  notesUploaded : Option Int
deriving DecidableEq, Repr

/-- A note document in the `notes` collection, with the fields written by
`NotesService.uploadNote`.  The stored role field is `uploadedByRole`;
`uploaderRole` is `Option` because `uploadNote` never writes a field of
that name (NotesService.deleteNote nevertheless reads it).
`cloudinaryPublicId` is likewise absent from documents written by
`uploadNote` and is read only by the HTTP endpoint. -/
structure NoteDoc where
  title : String
  subject : String
  branch : String
  semester : String
  pdfUrl : String
  uploadedByName : String
  uploadedByRole : String
  uploaderId : String
  filePath : String
  fileSize : Int
  fileName : String
  uploaderRole : Option String
  cloudinaryPublicId : Option String
deriving DecidableEq, Repr

/-- The durable state the services touch: the `users` and `notes`
collections of the document database and the set of blob-storage paths. -/
structure World where
  users : String → Option UserDoc
  notes : List (String × NoteDoc)
  storage : List String

/-- Point update of the `users` collection at one document id. -/
def setUser (users : String → Option UserDoc) (id : String) (d : UserDoc) :
    String → Option UserDoc :=
  fun k => if k == id then some d else users k

/-- Whether `sub` occurs as a contiguous run inside the second list. -/
def listIsInfix (sub : List Char) : List Char → Bool
  | [] => sub.isEmpty
  | c :: tl => List.isPrefixOf sub (c :: tl) || listIsInfix sub tl

/-- JS `String.prototype.includes`: substring occurrence. -/
def jsIncludes (s sub : String) : Bool :=
  listIsInfix sub.data s.data

/-- JS `String.prototype.toLowerCase` (over the ASCII range the code
uses). -/
def jsToLower (s : String) : String :=
  String.mk (s.data.map Char.toLower)

/-- JS `String.prototype.toUpperCase` (over the ASCII range the code
uses). -/
def jsToUpper (s : String) : String :=
  String.mk (s.data.map Char.toUpper)

/-- JS `String.prototype.endsWith`. -/
def jsEndsWith (s suffix : String) : Bool :=
  List.isPrefixOf suffix.data.reverse s.data.reverse

/-- Characters matched by the regex class `\s`. -/
def isJsWhitespace (c : Char) : Bool :=
  c == ' ' || c == '\t' || c == '\n' || c == '\r' ||
    c == Char.ofNat 11 || c == Char.ofNat 12

/-- The capture group of `authHeader.match` against the case-insensitive
regex for a Bearer header: the header must start with the six letters of
the scheme name (any case) followed by at least one whitespace character;
the captured token is the remainder after the greedy whitespace run (with
the regex backtracking giving up the last whitespace character when that
remainder would otherwise be empty). -/
def bearerCapture (h : String) : Option String :=
  let cs := h.data
  if (cs.take 6).map Char.toLower = "bearer".data then
    match cs.drop 6 with
    | [] => none
    | c :: tl =>
      if isJsWhitespace c then
        let rest := (c :: tl).dropWhile isJsWhitespace
        if rest.isEmpty then some (String.mk [(c :: tl).getLastD ' '])
        else some (String.mk rest)
      else none
  else none

namespace AuthService

/-- `AuthService.validateEmail`: the lowercased email must end with the
allowed domain. -/
def validateEmail (email : String) : Bool :=
  let allowedDomain := "@vrsec.ac.in"
  jsEndsWith (jsToLower email) allowedDomain

/-- Platform outcomes consumed by `signUpStudent` / `createAdmin`:
the auth-provider account creation (returning the new uid), the display
name update, and the user-document write. -/
structure SignUpEnv where
  createUserResult : Except JsError String
  updateProfileResult : Except JsError Unit
  setDocResult : Except JsError Unit

/-- `AuthService.signUpStudent`: validates the email domain, creates the
auth account, updates the display name, then writes the user document
with role student and zero points. -/
def signUpStudent (email _password name branch semester : String)
    (env : SignUpEnv) (w : World) : Except JsError (String × UserDoc) × World :=
  if !(validateEmail email) then
    (.error "Only VRSEC students with @vrsec.ac.in email can register", w)
  else
    match env.createUserResult with
    | .error e => (.error e, w)
    | .ok uid =>
      match env.updateProfileResult with
      | .error e => (.error e, w)
      | .ok _ =>
        let userData : UserDoc :=
          { uid := uid, name := name, email := jsToLower email, role := "student",
            branch := jsToUpper branch, semester := semester,
            points := some 0, notesUploaded := some 0 }
        match env.setDocResult with
        | .error e => (.error e, w)
        | .ok _ => (.ok (uid, userData), {w with users := setUser w.users uid userData})

/-- `AuthService.createAdmin`: same shape as `signUpStudent` but the
written document has role admin, branch ALL and semester N/A. -/
def createAdmin (email _password name : String)
    (env : SignUpEnv) (w : World) : Except JsError (String × UserDoc) × World :=
  if !(validateEmail email) then
    (.error "Only VRSEC email addresses are allowed", w)
  else
    match env.createUserResult with
    | .error e => (.error e, w)
    | .ok uid =>
      match env.updateProfileResult with
      | .error e => (.error e, w)
      | .ok _ =>
        let adminData : UserDoc :=
          { uid := uid, name := name, email := jsToLower email, role := "admin",
            branch := "ALL", semester := "N/A",
            points := some 0, notesUploaded := some 0 }
        match env.setDocResult with
        | .error e => (.error e, w)
        | .ok _ => (.ok (uid, adminData), {w with users := setUser w.users uid adminData})

/-- `AuthService.signIn`: validates the email domain, signs in against the
auth provider, then reads the user document. -/
def signIn (email _password : String) (authResult : Except JsError String)
    (getDocResult : Except JsError (Option UserDoc)) :
    Except JsError (String × UserDoc) :=
  if !(validateEmail email) then
    .error "Only VRSEC email addresses are allowed"
  else
    match authResult with
    | .error e => .error e
    | .ok uid =>
      match getDocResult with
      | .error e => .error e
      | .ok none => .error "User data not found in database"
      | .ok (some u) => .ok (uid, u)

/-- `AuthService.signOutUser`: passes the auth-provider outcome through. -/
def signOutUser (signOutResult : Except JsError Unit) : Except JsError Unit :=
  match signOutResult with
  | .error e => .error e
  | .ok _ => .ok ()

/-- `AuthService.getCurrentUserData`: reads the user document, failing when
it does not exist. -/
def getCurrentUserData (getDocResult : Except JsError (Option UserDoc)) :
    Except JsError UserDoc :=
  match getDocResult with
  | .error e => .error e
  | .ok none => .error "User data not found"
  | .ok (some u) => .ok u

/-- `AuthService.updateUserProfile`: passes the document update through. -/
def updateUserProfile (_uid : String) (updateDocResult : Except JsError Unit) :
    Except JsError Unit :=
  match updateDocResult with
  | .error e => .error e
  | .ok _ => .ok ()

/-- `AuthService.addUserPoints`: reads the user document and, when it
exists, writes back `points + points` and `notesUploaded + 1` with missing
fields read as 0 (the JS parameter defaults to 10).  No clamping is
performed. -/
def addUserPoints (uid : String) (points : Int)
    (updateDocResult : Except JsError Unit) (w : World) :
    Except JsError Unit × World :=
  match w.users uid with
  | none => (.ok (), w)
  | some u =>
    match updateDocResult with
    | .error e => (.error e, w)
    | .ok _ =>
      let u2 : UserDoc :=
        {u with points := some (u.points.getD 0 + points),
                notesUploaded := some (u.notesUploaded.getD 0 + 1)}
      (.ok (), {w with users := setUser w.users uid u2})

/-- `AuthService.isAdmin` on a present user document. -/
def isAdmin (userData : UserDoc) : Bool :=
  userData.role == "admin"

/-- `AuthService.isStudent` on a present user document. -/
def isStudent (userData : UserDoc) : Bool :=
  userData.role == "student"

end AuthService

namespace NotesService

/-- The 10MB size limit of `NotesService.uploadNote`. -/
def maxSize : Int := 10 * 1024 * 1024

/-- Platform outcomes consumed by `uploadNote`: the blob-storage upload,
the download-URL fetch, the id the database assigns to the added note
document, the commit outcome of the transaction, and `Date.now()`. -/
structure UploadEnv where
  uploadBytesResult : Except JsError Unit
  downloadURLResult : Except JsError String
  newNoteId : String
  txResult : Except JsError Unit
  timestamp : Int

/-- The argument object of `uploadNote`. -/
structure NoteData where
  file : JsFile
  title : String
  subject : String
  branch : String
  semester : String
  uploaderId : String
  uploaderName : String
  uploaderRole : String

/-- The transaction callback of `uploadNote` together with the commit.
`addDoc` is a plain write: it is performed immediately and is NOT part of
the buffered transaction, so the new note document persists even when the
transaction fails; only the `transaction.update` of the user document is
applied atomically on commit. -/
def runUploadTransaction (nd : NoteData) (newNoteId : String) (note : NoteDoc)
    (txResult : Except JsError Unit) (w : World) : Except JsError String × World :=
  let w3 : World := {w with notes := w.notes ++ [(newNoteId, note)]}
  match txResult with
  | .error e => (.error e, w3)
  | .ok _ =>
    if nd.uploaderRole == "student" then
      match w3.users nd.uploaderId with
      | none => (.ok newNoteId, w3)
      | some u =>
        let u2 : UserDoc :=
          {u with points := some (u.points.getD 0 + 10),
                  notesUploaded := some (u.notesUploaded.getD 0 + 1)}
        (.ok newNoteId, {w3 with users := setUser w3.users nd.uploaderId u2})
    else (.ok newNoteId, w3)

/-- `NotesService.uploadNote`: validates the file type and size, uploads
the blob, fetches its URL, then runs the transaction that adds the note
document and updates the uploader points for students. -/
def uploadNote (nd : NoteData) (env : UploadEnv) (w : World) :
    Except JsError String × World :=
  if !(jsIncludes nd.file.type "pdf") then
    (.error "Only PDF files are allowed", w)
  else if nd.file.size > maxSize then
    (.error "File size should not exceed 10MB", w)
  else
    let fileName :=
      nd.branch ++ "_" ++ nd.semester ++ "_" ++ nd.subject ++ "_" ++
        toString env.timestamp ++ ".pdf"
    let filePath := "notes/" ++ nd.branch ++ "/" ++ nd.semester ++ "/" ++ fileName
    match env.uploadBytesResult with
    | .error e => (.error e, w)
    | .ok _ =>
      let w1 : World := {w with storage := w.storage ++ [filePath]}
      match env.downloadURLResult with
      | .error e => (.error e, w1)
      | .ok url =>
        let note : NoteDoc :=
          { title := nd.title, subject := nd.subject,
            branch := jsToUpper nd.branch, semester := nd.semester,
            pdfUrl := url, uploadedByName := nd.uploaderName,
            uploadedByRole := nd.uploaderRole, uploaderId := nd.uploaderId,
            filePath := filePath, fileSize := nd.file.size,
            fileName := fileName, uploaderRole := none,
            cloudinaryPublicId := none }
        runUploadTransaction nd env.newNoteId note env.txResult w1

/-- `NotesService.getAllNotes`: returns the query result (each document
paired with its id). -/
def getAllNotes (getDocsResult : Except JsError (List (String × NoteDoc))) :
    Except JsError (List (String × NoteDoc)) :=
  match getDocsResult with
  | .error e => .error e
  | .ok docs => .ok docs

/-- `NotesService.getNotesByBranch`. -/
def getNotesByBranch (_branch : String)
    (getDocsResult : Except JsError (List (String × NoteDoc))) :
    Except JsError (List (String × NoteDoc)) :=
  match getDocsResult with
  | .error e => .error e
  | .ok docs => .ok docs

/-- `NotesService.getNotesBySemester`. -/
def getNotesBySemester (_semester : String)
    (getDocsResult : Except JsError (List (String × NoteDoc))) :
    Except JsError (List (String × NoteDoc)) :=
  match getDocsResult with
  | .error e => .error e
  | .ok docs => .ok docs

/-- `NotesService.getNotesBySubject`. -/
def getNotesBySubject (_subject : String)
    (getDocsResult : Except JsError (List (String × NoteDoc))) :
    Except JsError (List (String × NoteDoc)) :=
  match getDocsResult with
  | .error e => .error e
  | .ok docs => .ok docs

/-- `NotesService.getNotesByBranchAndSemester`. -/
def getNotesByBranchAndSemester (_branch _semester : String)
    (getDocsResult : Except JsError (List (String × NoteDoc))) :
    Except JsError (List (String × NoteDoc)) :=
  match getDocsResult with
  | .error e => .error e
  | .ok docs => .ok docs

/-- `NotesService.getNotesByUser`. -/
def getNotesByUser (_userId : String)
    (getDocsResult : Except JsError (List (String × NoteDoc))) :
    Except JsError (List (String × NoteDoc)) :=
  match getDocsResult with
  | .error e => .error e
  | .ok docs => .ok docs

/-- `NotesService.getNoteById`: reads the note document, failing when it
does not exist. -/
def getNoteById (getDocResult : Except JsError (Option NoteDoc)) :
    Except JsError NoteDoc :=
  match getDocResult with
  | .error e => .error e
  | .ok none => .error "Note not found"
  | .ok (some n) => .ok n

/-- `NotesService.updateNote`: passes the document update through. -/
def updateNote (_noteId : String) (updateDocResult : Except JsError Unit) :
    Except JsError Unit :=
  match updateDocResult with
  | .error e => .error e
  | .ok _ => .ok ()

/-- The owner-or-admin check of `NotesService.deleteNote` (line 303 of the
service file): the caller owns the note or their user document has the
admin role. -/
def serviceAuthorized (noteDoc : NoteDoc) (userId : String) (userData : UserDoc) : Bool :=
  noteDoc.uploaderId == userId || userData.role == "admin"

/-- Platform outcomes consumed by `deleteNote`: the blob-storage deletion
and the commit outcome of the transaction. -/
structure DeleteEnv where
  deleteObjectResult : Except JsError Unit
  txResult : Except JsError Unit

/-- The commit of the `deleteNote` transaction: `transaction.delete` of the
note document and the `transaction.update` of the uploader document are
buffered and applied together on commit, and discarded when the
transaction fails.  The update branch tests the stored `uploaderRole`
field, which documents written by `uploadNote` do not carry (they store
the role under `uploadedByRole`). -/
def deleteCommit (noteId : String) (noteDoc : NoteDoc)
    (txResult : Except JsError Unit) (w : World) : Except JsError Unit × World :=
  match txResult with
  | .error e => (.error e, w)
  | .ok _ =>
    let w1 : World := {w with notes := w.notes.filter (fun p => !(p.1 == noteId))}
    if noteDoc.uploaderRole == some "student" then
      match w1.users noteDoc.uploaderId with
      | none => (.ok (), w1)
      | some u =>
        let u2 : UserDoc :=
          {u with points := some (max 0 (u.points.getD 0 - 10)),
                  notesUploaded := some (max 0 (u.notesUploaded.getD 0 - 1))}
        (.ok (), {w1 with users := setUser w1.users noteDoc.uploaderId u2})
    else (.ok (), w1)

/-- The transaction callback of `deleteNote`: `deleteObject` is an
immediate blob-storage call (not a buffered database write); when it
throws, the callback throws and the transaction commits nothing. -/
def runDeleteTransaction (noteId : String) (noteDoc : NoteDoc)
    (env : DeleteEnv) (w : World) : Except JsError Unit × World :=
  if noteDoc.filePath == "" then
    deleteCommit noteId noteDoc env.txResult w
  else
    match env.deleteObjectResult with
    | .error e => (.error e, w)
    | .ok _ =>
      deleteCommit noteId noteDoc env.txResult
        {w with storage := w.storage.filter (fun p => !(p == noteDoc.filePath))}

/-- `NotesService.deleteNote`: reads the note and the caller user document,
checks owner-or-admin authorization, then runs the deletion transaction. -/
def deleteNote (noteId userId : String) (env : DeleteEnv) (w : World) :
    Except JsError Unit × World :=
  match getNoteById (.ok (List.lookup noteId w.notes)) with
  | .error e => (.error e, w)
  | .ok noteDoc =>
    match AuthService.getCurrentUserData (.ok (w.users userId)) with
    | .error e => (.error e, w)
    | .ok userData =>
      if !(serviceAuthorized noteDoc userId userData) then
        (.error "You are not authorized to delete this note", w)
      else
        runDeleteTransaction noteId noteDoc env w

/-- `NotesService.searchNotes`: fetches all notes and filters on a
lowercased substring match of title or subject. -/
def searchNotes (searchTerm : String)
    (getDocsResult : Except JsError (List (String × NoteDoc))) :
    Except JsError (List (String × NoteDoc)) :=
  match getAllNotes getDocsResult with
  | .error e => .error e
  | .ok notes =>
    .ok (notes.filter (fun p =>
      jsIncludes (jsToLower p.2.title) (jsToLower searchTerm) ||
        jsIncludes (jsToLower p.2.subject) (jsToLower searchTerm)))

/-- One step of the per-key counting done by `getNotesStats`. -/
def bumpCount (stats : List (String × Nat)) (key : String) : List (String × Nat) :=
  match List.lookup key stats with
  | some _ => stats.map (fun p => if p.1 == key then (p.1, p.2 + 1) else p)
  | none => stats ++ [(key, 1)]

/-- The statistics object returned by `getNotesStats`. -/
structure NotesStats where
  totalNotes : Nat
  branchStats : List (String × Nat)
  subjectStats : List (String × Nat)
  recentNotes : List (String × NoteDoc)
deriving DecidableEq, Repr

/-- `NotesService.getNotesStats`: fetches all notes and aggregates counts
by branch and subject plus the five most recent notes. -/
def getNotesStats (getDocsResult : Except JsError (List (String × NoteDoc))) :
    Except JsError NotesStats :=
  match getAllNotes getDocsResult with
  | .error e => .error e
  | .ok notes =>
    .ok { totalNotes := notes.length,
          branchStats := notes.foldl (fun acc p => bumpCount acc p.2.branch) [],
          subjectStats := notes.foldl (fun acc p => bumpCount acc p.2.subject) [],
          recentNotes := notes.take 5 }

end NotesService

namespace EventService

/-- An event document with the fields documented on `createEvent`. -/
structure EventDoc where
  title : String
  branch : String
  type : String
  date : String
  venue : String
  description : String
  registerLink : String
  organizerName : String
  organizerPhone : String
deriving DecidableEq, Repr

/-- `EventService.createEvent`: uppercases the branch and adds the event
document; the database assigns the id. -/
def createEvent (eventData : EventDoc)
    (addDoc : EventDoc → Except JsError String) : Except JsError String :=
  match addDoc {eventData with branch := jsToUpper eventData.branch} with
  | .error e => .error e
  | .ok id => .ok id

/-- `EventService.getAllEvents`. -/
def getAllEvents (getDocsResult : Except JsError (List (String × EventDoc))) :
    Except JsError (List (String × EventDoc)) :=
  match getDocsResult with
  | .error e => .error e
  | .ok docs => .ok docs

/-- `EventService.getEventsByBranch`. -/
def getEventsByBranch (_branch : String)
    (getDocsResult : Except JsError (List (String × EventDoc))) :
    Except JsError (List (String × EventDoc)) :=
  match getDocsResult with
  | .error e => .error e
  | .ok docs => .ok docs

/-- `EventService.getEventsByType`. -/
def getEventsByType (_type : String)
    (getDocsResult : Except JsError (List (String × EventDoc))) :
    Except JsError (List (String × EventDoc)) :=
  match getDocsResult with
  | .error e => .error e
  | .ok docs => .ok docs

/-- `EventService.getUpcomingEvents` (the date bound is computed from the
clock and handed to the database query). -/
def getUpcomingEvents (_today : String)
    (getDocsResult : Except JsError (List (String × EventDoc))) :
    Except JsError (List (String × EventDoc)) :=
  match getDocsResult with
  | .error e => .error e
  | .ok docs => .ok docs

/-- `EventService.getEventById`: reads the event document, failing when it
does not exist. -/
def getEventById (getDocResult : Except JsError (Option EventDoc)) :
    Except JsError EventDoc :=
  match getDocResult with
  | .error e => .error e
  | .ok none => .error "Event not found"
  | .ok (some ev) => .ok ev

/-- `EventService.updateEvent`: passes the document update through. -/
def updateEvent (_eventId : String) (updateDocResult : Except JsError Unit) :
    Except JsError Unit :=
  match updateDocResult with
  | .error e => .error e
  | .ok _ => .ok ()

/-- `EventService.deleteEvent`: passes the document deletion through. -/
def deleteEvent (_eventId : String) (deleteDocResult : Except JsError Unit) :
    Except JsError Unit :=
  match deleteDocResult with
  | .error e => .error e
  | .ok _ => .ok ()

end EventService

namespace QueryService

/-- The argument object of `createQuery`. -/
structure QueryData where
  userId : String
  studentName : String
  subject : String
  message : String
deriving DecidableEq, Repr

/-- A query document as stored in the `queries` collection. -/
structure QueryDoc where
  userId : String
  studentName : String
  subject : String
  message : String
  status : String
deriving DecidableEq, Repr

/-- `QueryService.createQuery`: builds the document with status pending and
adds it; the database assigns the id. -/
def createQuery (queryData : QueryData)
    (addDoc : QueryDoc → Except JsError String) : Except JsError String :=
  match addDoc { userId := queryData.userId, studentName := queryData.studentName,
                 subject := queryData.subject, message := queryData.message,
                 status := "pending" } with
  | .error e => .error e
  | .ok id => .ok id

/-- `QueryService.getAllQueries`. -/
def getAllQueries (getDocsResult : Except JsError (List (String × QueryDoc))) :
    Except JsError (List (String × QueryDoc)) :=
  match getDocsResult with
  | .error e => .error e
  | .ok docs => .ok docs

/-- `QueryService.getQueriesByUser`. -/
def getQueriesByUser (_userId : String)
    (getDocsResult : Except JsError (List (String × QueryDoc))) :
    Except JsError (List (String × QueryDoc)) :=
  match getDocsResult with
  | .error e => .error e
  | .ok docs => .ok docs

/-- `QueryService.getQueriesByStatus`. -/
def getQueriesByStatus (_status : String)
    (getDocsResult : Except JsError (List (String × QueryDoc))) :
    Except JsError (List (String × QueryDoc)) :=
  match getDocsResult with
  | .error e => .error e
  | .ok docs => .ok docs

/-- `QueryService.getPendingQueries`: delegates to `getQueriesByStatus`
with status pending. -/
def getPendingQueries (getDocsResult : Except JsError (List (String × QueryDoc))) :
    Except JsError (List (String × QueryDoc)) :=
  match getQueriesByStatus "pending" getDocsResult with
  | .error e => .error e
  | .ok docs => .ok docs

/-- `QueryService.getQueryById`: reads the query document, failing when it
does not exist. -/
def getQueryById (getDocResult : Except JsError (Option QueryDoc)) :
    Except JsError QueryDoc :=
  match getDocResult with
  | .error e => .error e
  | .ok none => .error "Query not found"
  | .ok (some q) => .ok q

/-- `QueryService.updateQueryStatus`: passes the status update through. -/
def updateQueryStatus (_queryId _status : String)
    (updateDocResult : Except JsError Unit) : Except JsError Unit :=
  match updateDocResult with
  | .error e => .error e
  | .ok _ => .ok ()

/-- `QueryService.updateQuery`: passes the document update through. -/
def updateQuery (_queryId : String) (updateDocResult : Except JsError Unit) :
    Except JsError Unit :=
  match updateDocResult with
  | .error e => .error e
  | .ok _ => .ok ()

/-- `QueryService.deleteQuery`: passes the document deletion through. -/
def deleteQuery (_queryId : String) (deleteDocResult : Except JsError Unit) :
    Except JsError Unit :=
  match deleteDocResult with
  | .error e => .error e
  | .ok _ => .ok ()

/-- `QueryService.markQueryCompleted`: delegates to `updateQueryStatus`. -/
def markQueryCompleted (queryId : String)
    (updateDocResult : Except JsError Unit) : Except JsError Unit :=
  match updateQueryStatus queryId "completed" updateDocResult with
  | .error e => .error e
  | .ok _ => .ok ()

end QueryService

namespace InfrastructureService

/-- A facility document with the fields written by `createFacility`. -/
structure FacilityDoc where
  name : String
  description : String
  timings : String
  mapUrl : String
deriving DecidableEq, Repr

/-- `InfrastructureService.createFacility`: builds the facility document
and adds it; the database assigns the id. -/
def createFacility (facilityData : FacilityDoc)
    (addDoc : FacilityDoc → Except JsError String) : Except JsError String :=
  match addDoc { name := facilityData.name, description := facilityData.description,
                 timings := facilityData.timings, mapUrl := facilityData.mapUrl } with
  | .error e => .error e
  | .ok id => .ok id

/-- `InfrastructureService.getAllFacilities`. -/
def getAllFacilities (getDocsResult : Except JsError (List (String × FacilityDoc))) :
    Except JsError (List (String × FacilityDoc)) :=
  match getDocsResult with
  | .error e => .error e
  | .ok docs => .ok docs

/-- `InfrastructureService.getFacilityById`: reads the facility document,
failing when it does not exist. -/
def getFacilityById (getDocResult : Except JsError (Option FacilityDoc)) :
    Except JsError FacilityDoc :=
  match getDocResult with
  | .error e => .error e
  | .ok none => .error "Facility not found"
  | .ok (some f) => .ok f

/-- `InfrastructureService.updateFacility`: passes the document update
through. -/
def updateFacility (_facilityId : String) (updateDocResult : Except JsError Unit) :
    Except JsError Unit :=
  match updateDocResult with
  | .error e => .error e
  | .ok _ => .ok ()

/-- `InfrastructureService.deleteFacility`: passes the document deletion
through. -/
def deleteFacility (_facilityId : String) (deleteDocResult : Except JsError Unit) :
    Except JsError Unit :=
  match deleteDocResult with
  | .error e => .error e
  | .ok _ => .ok ()

/-- `InfrastructureService.searchFacilities`: fetches all facilities and
filters on a lowercased substring match of name or description. -/
def searchFacilities (searchTerm : String)
    (getDocsResult : Except JsError (List (String × FacilityDoc))) :
    Except JsError (List (String × FacilityDoc)) :=
  match getAllFacilities getDocsResult with
  | .error e => .error e
  | .ok facilities =>
    .ok (facilities.filter (fun p =>
      jsIncludes (jsToLower p.2.name) (jsToLower searchTerm) ||
        jsIncludes (jsToLower p.2.description) (jsToLower searchTerm)))

end InfrastructureService

namespace Server

/-- The identity claims of a verified id token that the endpoint reads;
a missing or empty claim is modelled as the empty string (both are falsy
in the JS truthiness tests). -/
structure Decoded where
  uid : String
  email : String
deriving DecidableEq, Repr

/-- The default value of the ADMIN_EMAIL configuration (the environment
variable, or this literal, lowercased at startup). -/
def defaultAdminEmail : String := "siddiqshaik613@gmail.com"

/-- The admin test of the endpoint (server.js line 143): the lowercased
decoded email equals the configured admin email. -/
def endpointIsAdmin (decoded : Decoded) (adminEmail : String) : Bool :=
  jsToLower decoded.email == adminEmail

/-- The owner test of the endpoint (server.js line 144): both the decoded
uid and the stored uploaderId must be truthy and equal. -/
def endpointIsOwner (decoded : Decoded) (uploaderId : String) : Bool :=
  !(decoded.uid == "") && !(uploaderId == "") && decoded.uid == uploaderId

/-- The combined owner-or-admin authorization decided by the endpoint. -/
def endpointAuthorized (decoded : Decoded) (note : NoteDoc) (adminEmail : String) : Bool :=
  endpointIsAdmin decoded adminEmail || endpointIsOwner decoded note.uploaderId

/-- The parts of the HTTP request the endpoint reads. -/
structure DeleteReq where
  authorizationHeader : Option String
  noteId : Option String

/-- Platform outcomes consumed by the endpoint: token verification as a
function of the presented token, and the media-host destroy call (its
`result` field may be absent). -/
structure EndpointEnv where
  verify : String → Except JsError Decoded
  destroyResult : Except JsError (Option String)

/-- The response the endpoint sends: HTTP status plus the fields of the
JSON body it populates. -/
structure HttpResponse where
  status : Nat
  okField : Option Bool
  resultField : Option String
  errorField : Option String
deriving DecidableEq, Repr

/-- The POST /api/cloudinary/delete-note-file handler, returning the
response together with whether the media-host destroy call was performed.
A platform call that throws is answered 500 by the surrounding catch. -/
def deleteNoteFileEndpoint (adminEmail : String) (req : DeleteReq)
    (notes : List (String × NoteDoc)) (env : EndpointEnv) : HttpResponse × Bool :=
  match bearerCapture (req.authorizationHeader.getD "") with
  | none => (⟨401, none, none, some "Missing Authorization Bearer token"⟩, false)
  | some idToken =>
    match env.verify idToken with
    | .error e => (⟨500, none, none, some e⟩, false)
    | .ok decoded =>
      if req.noteId.getD "" == "" then
        (⟨400, none, none, some "noteId is required"⟩, false)
      else
        match List.lookup (req.noteId.getD "") notes with
        | none => (⟨404, none, none, some "Note not found"⟩, false)
        | some note =>
          if note.cloudinaryPublicId.getD "" == "" then
            (⟨400, none, none, some "Note has no cloudinaryPublicId"⟩, false)
          else if !(endpointIsAdmin decoded adminEmail) && !(endpointIsOwner decoded note.uploaderId) then
            (⟨403, none, none, some "Not authorized to delete this file"⟩, false)
          else
            match env.destroyResult with
            | .error e => (⟨500, none, none, some e⟩, true)
            | .ok r =>
              if !(r == some "ok") && !(r == some "not found") then
                (⟨500, none, none,
                  some ("Cloudinary destroy failed: " ++
                    (if r.getD "" == "" then "unknown" else r.getD ""))⟩, true)
              else (⟨200, some true, r, none⟩, true)

/-- The GET /health handler. -/
def healthEndpoint : HttpResponse :=
  ⟨200, some true, none, none⟩

/-- HTTP methods used by the app. -/
inductive HttpMethod
  | get
  | post
deriving DecidableEq, Repr

/-- The routes registered on the express app, in registration order. -/
def registeredRoutes : List (HttpMethod × String) :=
  [(HttpMethod.get, "/health"),
   (HttpMethod.post, "/api/cloudinary/delete-note-file")]

end Server

/-! Concrete fixtures used by witnesses and counterexamples. -/

/-- A student user document with zero points. -/
def sampleUser : UserDoc :=
  { uid := "stu1", name := "Asha", email := "asha@vrsec.ac.in", role := "student",
    branch := "CSE", semester := "3", points := some 0, notesUploaded := some 0 }

/-- A world holding exactly the student `sampleUser` and no notes. -/
def sampleWorld : World :=
  { users := setUser (fun _ => none) "stu1" sampleUser, notes := [], storage := [] }

/-- A 100-byte PDF file. -/
def samplePdf : JsFile := { type := "application/pdf", size := 100 }

/-- An upload request of `samplePdf` by the student `sampleUser`. -/
def sampleNoteData : NotesService.NoteData :=
  { file := samplePdf, title := "T", subject := "S", branch := "cse", semester := "3",
    uploaderId := "stu1", uploaderName := "Asha", uploaderRole := "student" }

/-- Platform outcomes where every call of `uploadNote` succeeds. -/
def okUploadEnv : NotesService.UploadEnv :=
  { uploadBytesResult := .ok (), downloadURLResult := .ok "https://cdn.example/a.pdf",
    newNoteId := "n1", txResult := .ok (), timestamp := 0 }

/-- Platform outcomes where the upload transaction fails to commit. -/
def abortUploadEnv : NotesService.UploadEnv :=
  { okUploadEnv with txResult := .error "transaction failed" }

/-- C6: the express app registers exactly the two routes GET /health and
POST /api/cloudinary/delete-note-file, and the health handler responds
with status 200 and the ok field set to true. -/
theorem c6_routes_and_health :
    Server.registeredRoutes =
      [(Server.HttpMethod.get, "/health"),
       (Server.HttpMethod.post, "/api/cloudinary/delete-note-file")] ∧
    Server.healthEndpoint.status = 200 ∧ Server.healthEndpoint.okField = some true :=
  ⟨rfl, rfl, rfl⟩

/-- C2 (code bug): in `NotesService.uploadNote` the note document is added
with a plain `addDoc` inside the transaction callback, which is not a
buffered transaction write, so when the transaction fails the call throws
yet the notes collection has gained the new document while the uploader
document is unchanged — the claimed all-or-nothing atomicity of note
write plus points update does not hold.  Concretely: a valid 100-byte PDF
upload by student stu1 whose transaction commit fails. -/
theorem c2_upload_not_atomic :
    (NotesService.uploadNote sampleNoteData abortUploadEnv sampleWorld).1 =
      .error "transaction failed" ∧
    (NotesService.uploadNote sampleNoteData abortUploadEnv sampleWorld).2.notes.length = 1 ∧
    (NotesService.uploadNote sampleNoteData abortUploadEnv sampleWorld).2.users = sampleWorld.users :=
  ⟨rfl, rfl, rfl⟩

/-- C5: `uploadNote` rejects, with the world untouched (no storage upload
and no database write, whatever the platform outcomes would have been),
every file whose type does not include pdf or whose size exceeds
10*1024*1024 bytes; a PDF of exactly 10*1024*1024 bytes passes validation
and, when the platform calls succeed, the upload succeeds. -/
theorem c5_upload_validation (nd : NotesService.NoteData)
    (env : NotesService.UploadEnv) (w : World) :
    (jsIncludes nd.file.type "pdf" = false ∨ nd.file.size > NotesService.maxSize →
      ∃ msg, NotesService.uploadNote nd env w = (.error msg, w)) ∧
    (jsIncludes nd.file.type "pdf" = true → nd.file.size = NotesService.maxSize →
      env.uploadBytesResult = .ok () → env.txResult = .ok () →
      ∀ url, env.downloadURLResult = .ok url →
        (NotesService.uploadNote nd env w).1 = .ok env.newNoteId) := by
  constructor
  · intro h
    by_cases h1 : jsIncludes nd.file.type "pdf"
    · rcases h with h | h
      · rw [h1] at h; cases h
      · exact ⟨"File size should not exceed 10MB", by
          simp [NotesService.uploadNote, h1, h]⟩
    · exact ⟨"Only PDF files are allowed", by
        simp [NotesService.uploadNote, h1]⟩
  · intro h1 h2 h3 h4 url h5
    have hsz : ¬(nd.file.size > NotesService.maxSize) := by omega
    simp [NotesService.uploadNote, h1, hsz, h3, h5,
      NotesService.runUploadTransaction, h4]
    split
    · split <;> simp
    · simp

/-- C5 witness: a PDF of exactly 10MB is accepted and an oversized file is
rejected without touching the world. -/
theorem c5_witness :
    (∃ msg, NotesService.uploadNote
        {sampleNoteData with file := { type := "application/pdf", size := 10 * 1024 * 1024 + 1 }}
        okUploadEnv sampleWorld = (.error msg, sampleWorld)) ∧
    (NotesService.uploadNote
        {sampleNoteData with file := { type := "application/pdf", size := 10 * 1024 * 1024 }}
        okUploadEnv sampleWorld).1 = .ok "n1" :=
  ⟨(c5_upload_validation _ okUploadEnv sampleWorld).1 (Or.inr (by decide)),
   (c5_upload_validation _ okUploadEnv sampleWorld).2 (by decide) (by decide) rfl rfl
     "https://cdn.example/a.pdf" rfl⟩

/-- C9: `validateEmail` holds exactly when the lowercased email ends with
the VRSEC domain, and `signUpStudent`, `createAdmin` and `signIn` all
reject an invalid email up front: the result is the validation error, the
world is untouched, and no platform outcome is consulted (the result is
the same for every platform environment). -/
theorem c9_email_validation :
    (∀ email : String,
      AuthService.validateEmail email = jsEndsWith (jsToLower email) "@vrsec.ac.in") ∧
    (∀ email pw name branch semester env w, AuthService.validateEmail email = false →
      AuthService.signUpStudent email pw name branch semester env w =
        (.error "Only VRSEC students with @vrsec.ac.in email can register", w)) ∧
    (∀ email pw name env w, AuthService.validateEmail email = false →
      AuthService.createAdmin email pw name env w =
        (.error "Only VRSEC email addresses are allowed", w)) ∧
    (∀ email pw authResult getDocResult, AuthService.validateEmail email = false →
      AuthService.signIn email pw authResult getDocResult =
        .error "Only VRSEC email addresses are allowed") := by
  refine ⟨fun _ => rfl, ?_, ?_, ?_⟩
  · intro email pw name branch semester env w h
    simp [AuthService.signUpStudent, h]
  · intro email pw name env w h
    simp [AuthService.createAdmin, h]
  · intro email pw authResult getDocResult h
    simp [AuthService.signIn, h]

/-- C9 witness: a gmail address fails validation and all three operations
reject it with the world untouched. -/
theorem c9_witness :
    AuthService.validateEmail "someone@gmail.com" = false ∧
    AuthService.signUpStudent "someone@gmail.com" "pw" "N" "cse" "3"
        ⟨.ok "u9", .ok (), .ok ()⟩ sampleWorld =
      (.error "Only VRSEC students with @vrsec.ac.in email can register", sampleWorld) ∧
    AuthService.createAdmin "someone@gmail.com" "pw" "N"
        ⟨.ok "u9", .ok (), .ok ()⟩ sampleWorld =
      (.error "Only VRSEC email addresses are allowed", sampleWorld) ∧
    AuthService.signIn "someone@gmail.com" "pw" (.ok "u9") (.ok none) =
      .error "Only VRSEC email addresses are allowed" :=
  ⟨by decide,
   c9_email_validation.2.1 "someone@gmail.com" "pw" "N" "cse" "3" _ sampleWorld (by decide),
   c9_email_validation.2.2.1 "someone@gmail.com" "pw" "N" _ sampleWorld (by decide),
   c9_email_validation.2.2.2 "someone@gmail.com" "pw" (.ok "u9") (.ok none) (by decide)⟩

/-- A stored note document uploaded by `sampleUser`, carrying a
media-host public id. -/
def sampleNote : NoteDoc :=
  { title := "T", subject := "S", branch := "CSE", semester := "3",
    pdfUrl := "https://cdn.example/a.pdf", uploadedByName := "Asha",
    uploadedByRole := "student", uploaderId := "stu1",
    filePath := "notes/cse/3/a.pdf", fileSize := 100, fileName := "a.pdf",
    uploaderRole := none, cloudinaryPublicId := some "pid1" }

/-- A world holding `sampleUser` and the note `sampleNote` under id n1. -/
def worldWithNote : World :=
  { users := setUser (fun _ => none) "stu1" sampleUser,
    notes := [("n1", sampleNote)], storage := ["notes/cse/3/a.pdf"] }

/-- C3: a successful `uploadNote` by a student with an existing user
document adds 10 points and one notesUploaded count (missing fields read
as 0); a successful `uploadNote` with any other uploader role leaves the
users collection untouched. -/
theorem c3_upload_points (nd : NotesService.NoteData) (env : NotesService.UploadEnv)
    (w : World) (id : String)
    (hok : (NotesService.uploadNote nd env w).1 = .ok id) :
    (nd.uploaderRole = "student" →
      ∀ u, w.users nd.uploaderId = some u →
        (NotesService.uploadNote nd env w).2.users nd.uploaderId =
          some {u with points := some (u.points.getD 0 + 10),
                       notesUploaded := some (u.notesUploaded.getD 0 + 1)}) ∧
    (nd.uploaderRole ≠ "student" →
      (NotesService.uploadNote nd env w).2.users = w.users) := by
  by_cases h1 : jsIncludes nd.file.type "pdf"
  case neg => simp [NotesService.uploadNote, h1] at hok
  by_cases h2 : nd.file.size > NotesService.maxSize
  case pos => simp [NotesService.uploadNote, h1, h2] at hok
  cases h3 : env.uploadBytesResult with
  | error e => simp [NotesService.uploadNote, h1, h2, h3] at hok
  | ok _ =>
  cases h4 : env.downloadURLResult with
  | error e => simp [NotesService.uploadNote, h1, h2, h3, h4] at hok
  | ok url =>
  cases h5 : env.txResult with
  | error e =>
    simp [NotesService.uploadNote, NotesService.runUploadTransaction,
      h1, h2, h3, h4, h5] at hok
  | ok _ =>
  by_cases h6 : nd.uploaderRole = "student"
  · refine ⟨fun _ u hu => ?_, fun hrole => absurd h6 hrole⟩
    simp [NotesService.uploadNote, NotesService.runUploadTransaction,
      h1, h2, h3, h4, h5, h6, hu, setUser]
  · refine ⟨fun hrole => absurd hrole h6, fun _ => ?_⟩
    have h6b : (nd.uploaderRole == "student") = false := beq_eq_false_iff_ne.mpr h6
    simp [NotesService.uploadNote, NotesService.runUploadTransaction,
      h1, h2, h3, h4, h5, h6b]

/-- C3 witness: the student stu1 with 0 points and 0 uploads ends up with
10 points and 1 upload after a successful upload. -/
theorem c3_witness :
    (NotesService.uploadNote sampleNoteData okUploadEnv sampleWorld).2.users "stu1" =
      some {sampleUser with points := some (sampleUser.points.getD 0 + 10),
                            notesUploaded := some (sampleUser.notesUploaded.getD 0 + 1)} :=
  (c3_upload_points sampleNoteData okUploadEnv sampleWorld "n1" rfl).1 rfl sampleUser rfl

/-- C7: every service operation passes a platform failure through
unchanged: its try-catch only logs and rethrows, so an underlying call
failing with error e makes the operation fail with the same e (for the
effectful operations, with the world left as the performed effects put
it).  One conjunct per fallible platform call of each operation of
NotesService, AuthService, EventService, QueryService and
InfrastructureService. -/
theorem c7_error_propagation :
    (∀ nd env (w : World) e, jsIncludes nd.file.type "pdf" = true →
      ¬(nd.file.size > NotesService.maxSize) → env.uploadBytesResult = .error e →
      NotesService.uploadNote nd env w = (.error e, w)) ∧
    (∀ nd env (w : World) e, jsIncludes nd.file.type "pdf" = true →
      ¬(nd.file.size > NotesService.maxSize) → env.uploadBytesResult = .ok () →
      env.downloadURLResult = .error e →
      (NotesService.uploadNote nd env w).1 = .error e) ∧
    (∀ nd env (w : World) e url, jsIncludes nd.file.type "pdf" = true →
      ¬(nd.file.size > NotesService.maxSize) → env.uploadBytesResult = .ok () →
      env.downloadURLResult = .ok url → env.txResult = .error e →
      (NotesService.uploadNote nd env w).1 = .error e) ∧
    (∀ e, NotesService.getAllNotes (.error e) = .error e) ∧
    (∀ b e, NotesService.getNotesByBranch b (.error e) = .error e) ∧
    (∀ s e, NotesService.getNotesBySemester s (.error e) = .error e) ∧
    (∀ s e, NotesService.getNotesBySubject s (.error e) = .error e) ∧
    (∀ b s e, NotesService.getNotesByBranchAndSemester b s (.error e) = .error e) ∧
    (∀ u e, NotesService.getNotesByUser u (.error e) = .error e) ∧
    (∀ e, NotesService.getNoteById (.error e) = .error e) ∧
    (∀ n e, NotesService.updateNote n (.error e) = .error e) ∧
    (∀ noteId userId env (w : World) e noteDoc userData,
      List.lookup noteId w.notes = some noteDoc → w.users userId = some userData →
      NotesService.serviceAuthorized noteDoc userId userData = true →
      ¬(noteDoc.filePath = "") → env.deleteObjectResult = .error e →
      NotesService.deleteNote noteId userId env w = (.error e, w)) ∧
    (∀ noteId userId env (w : World) e noteDoc userData,
      List.lookup noteId w.notes = some noteDoc → w.users userId = some userData →
      NotesService.serviceAuthorized noteDoc userId userData = true →
      (noteDoc.filePath = "" ∨ env.deleteObjectResult = .ok ()) →
      env.txResult = .error e →
      (NotesService.deleteNote noteId userId env w).1 = .error e) ∧
    (∀ t e, NotesService.searchNotes t (.error e) = .error e) ∧
    (∀ e, NotesService.getNotesStats (.error e) = .error e) ∧
    (∀ email pw name b s env (w : World) e, AuthService.validateEmail email = true →
      env.createUserResult = .error e →
      AuthService.signUpStudent email pw name b s env w = (.error e, w)) ∧
    (∀ email pw name b s env (w : World) e uid, AuthService.validateEmail email = true →
      env.createUserResult = .ok uid → env.updateProfileResult = .error e →
      AuthService.signUpStudent email pw name b s env w = (.error e, w)) ∧
    (∀ email pw name b s env (w : World) e uid, AuthService.validateEmail email = true →
      env.createUserResult = .ok uid → env.updateProfileResult = .ok () →
      env.setDocResult = .error e →
      AuthService.signUpStudent email pw name b s env w = (.error e, w)) ∧
    (∀ email pw name env (w : World) e, AuthService.validateEmail email = true →
      env.createUserResult = .error e →
      AuthService.createAdmin email pw name env w = (.error e, w)) ∧
    (∀ email pw name env (w : World) e uid, AuthService.validateEmail email = true →
      env.createUserResult = .ok uid → env.updateProfileResult = .error e →
      AuthService.createAdmin email pw name env w = (.error e, w)) ∧
    (∀ email pw name env (w : World) e uid, AuthService.validateEmail email = true →
      env.createUserResult = .ok uid → env.updateProfileResult = .ok () →
      env.setDocResult = .error e →
      AuthService.createAdmin email pw name env w = (.error e, w)) ∧
    (∀ email pw g e, AuthService.validateEmail email = true →
      AuthService.signIn email pw (.error e) g = .error e) ∧
    (∀ email pw uid e, AuthService.validateEmail email = true →
      AuthService.signIn email pw (.ok uid) (.error e) = .error e) ∧
    (∀ e, AuthService.signOutUser (.error e) = .error e) ∧
    (∀ e, AuthService.getCurrentUserData (.error e) = .error e) ∧
    (∀ uid e, AuthService.updateUserProfile uid (.error e) = .error e) ∧
    (∀ uid pts (w : World) e u, w.users uid = some u →
      AuthService.addUserPoints uid pts (.error e) w = (.error e, w)) ∧
    (∀ ed e, EventService.createEvent ed (fun _ => .error e) = .error e) ∧
    (∀ e, EventService.getAllEvents (.error e) = .error e) ∧
    (∀ b e, EventService.getEventsByBranch b (.error e) = .error e) ∧
    (∀ t e, EventService.getEventsByType t (.error e) = .error e) ∧
    (∀ d e, EventService.getUpcomingEvents d (.error e) = .error e) ∧
    (∀ e, EventService.getEventById (.error e) = .error e) ∧
    (∀ i e, EventService.updateEvent i (.error e) = .error e) ∧
    (∀ i e, EventService.deleteEvent i (.error e) = .error e) ∧
    (∀ qd e, QueryService.createQuery qd (fun _ => .error e) = .error e) ∧
    (∀ e, QueryService.getAllQueries (.error e) = .error e) ∧
    (∀ u e, QueryService.getQueriesByUser u (.error e) = .error e) ∧
    (∀ s e, QueryService.getQueriesByStatus s (.error e) = .error e) ∧
    (∀ e, QueryService.getPendingQueries (.error e) = .error e) ∧
    (∀ e, QueryService.getQueryById (.error e) = .error e) ∧
    (∀ i s e, QueryService.updateQueryStatus i s (.error e) = .error e) ∧
    (∀ i e, QueryService.updateQuery i (.error e) = .error e) ∧
    (∀ i e, QueryService.deleteQuery i (.error e) = .error e) ∧
    (∀ i e, QueryService.markQueryCompleted i (.error e) = .error e) ∧
    (∀ fd e, InfrastructureService.createFacility fd (fun _ => .error e) = .error e) ∧
    (∀ e, InfrastructureService.getAllFacilities (.error e) = .error e) ∧
    (∀ e, InfrastructureService.getFacilityById (.error e) = .error e) ∧
    (∀ i e, InfrastructureService.updateFacility i (.error e) = .error e) ∧
    (∀ i e, InfrastructureService.deleteFacility i (.error e) = .error e) ∧
    (∀ t e, InfrastructureService.searchFacilities t (.error e) = .error e) := by
  refine ⟨?_, ?_, ?_, fun e => rfl, fun b e => rfl, fun s e => rfl, fun s e => rfl,
    fun b s e => rfl, fun u e => rfl, fun e => rfl, fun n e => rfl, ?_, ?_,
    fun t e => rfl, fun e => rfl, ?_, ?_, ?_, ?_, ?_, ?_, ?_, ?_,
    fun e => rfl, fun e => rfl, fun uid e => rfl, ?_,
    fun ed e => rfl, fun e => rfl, fun b e => rfl, fun t e => rfl, fun d e => rfl,
    fun e => rfl, fun i e => rfl, fun i e => rfl,
    fun qd e => rfl, fun e => rfl, fun u e => rfl, fun s e => rfl, fun e => rfl,
    fun e => rfl, fun i s e => rfl, fun i e => rfl, fun i e => rfl, fun i e => rfl,
    fun fd e => rfl, fun e => rfl, fun e => rfl, fun i e => rfl, fun i e => rfl,
    fun t e => rfl⟩
  · intro nd env w e h1 h2 h3
    simp [NotesService.uploadNote, h1, h2, h3]
  · intro nd env w e h1 h2 h3 h4
    simp [NotesService.uploadNote, h1, h2, h3, h4]
  · intro nd env w e url h1 h2 h3 h4 h5
    simp [NotesService.uploadNote, NotesService.runUploadTransaction, h1, h2, h3, h4, h5]
  · intro noteId userId env w e noteDoc userData hlk hu hauth hfp hdel
    have hfpb : (noteDoc.filePath == "") = false := beq_eq_false_iff_ne.mpr hfp
    simp [NotesService.deleteNote, NotesService.getNoteById,
      AuthService.getCurrentUserData, NotesService.runDeleteTransaction,
      hlk, hu, hauth, hfpb, hdel]
  · intro noteId userId env w e noteDoc userData hlk hu hauth hdel htx
    rcases hdel with hfp | hdo
    · simp [NotesService.deleteNote, NotesService.getNoteById,
        AuthService.getCurrentUserData, NotesService.runDeleteTransaction,
        NotesService.deleteCommit, hlk, hu, hauth, hfp, htx]
    · by_cases hfp : noteDoc.filePath = ""
      · simp [NotesService.deleteNote, NotesService.getNoteById,
          AuthService.getCurrentUserData, NotesService.runDeleteTransaction,
          NotesService.deleteCommit, hlk, hu, hauth, hfp, htx]
      · have hfpb : (noteDoc.filePath == "") = false := beq_eq_false_iff_ne.mpr hfp
        simp [NotesService.deleteNote, NotesService.getNoteById,
          AuthService.getCurrentUserData, NotesService.runDeleteTransaction,
          NotesService.deleteCommit, hlk, hu, hauth, hfpb, hdo, htx]
  · intro email pw name b s env w e hval h
    simp [AuthService.signUpStudent, hval, h]
  · intro email pw name b s env w e uid hval h1 h2
    simp [AuthService.signUpStudent, hval, h1, h2]
  · intro email pw name b s env w e uid hval h1 h2 h3
    simp [AuthService.signUpStudent, hval, h1, h2, h3]
  · intro email pw name env w e hval h
    simp [AuthService.createAdmin, hval, h]
  · intro email pw name env w e uid hval h1 h2
    simp [AuthService.createAdmin, hval, h1, h2]
  · intro email pw name env w e uid hval h1 h2 h3
    simp [AuthService.createAdmin, hval, h1, h2, h3]
  · intro email pw g e hval
    simp [AuthService.signIn, hval]
  · intro email pw uid e hval
    simp [AuthService.signIn, hval]
  · intro uid pts w e u hu
    simp [AuthService.addUserPoints, hu]

/-- C7 witness: concrete platform failures propagate unchanged through an
upload, both deletion slots, a sign-up, a sign-in and a points update. -/
theorem c7_witness :
    NotesService.uploadNote sampleNoteData
        {okUploadEnv with uploadBytesResult := .error "storage down"} sampleWorld =
      (.error "storage down", sampleWorld) ∧
    NotesService.deleteNote "n1" "stu1" ⟨.error "storage down", .ok ()⟩ worldWithNote =
      (.error "storage down", worldWithNote) ∧
    (NotesService.deleteNote "n1" "stu1" ⟨.ok (), .error "tx down"⟩ worldWithNote).1 =
      .error "tx down" ∧
    AuthService.signUpStudent "a@vrsec.ac.in" "pw" "N" "cse" "3"
        ⟨.error "auth down", .ok (), .ok ()⟩ sampleWorld =
      (.error "auth down", sampleWorld) ∧
    AuthService.signIn "a@vrsec.ac.in" "pw" (.error "auth down") (.ok none) =
      .error "auth down" ∧
    AuthService.addUserPoints "stu1" 10 (.error "db down") sampleWorld =
      (.error "db down", sampleWorld) := by
  obtain ⟨p1, _, _, _, _, _, _, _, _, _, _, p12, p13, _, _, p16, _, _, _, _, _,
    p22, _, _, _, _, p27, _⟩ := c7_error_propagation
  exact ⟨p1 sampleNoteData _ sampleWorld "storage down" (by decide) (by decide) rfl,
    p12 "n1" "stu1" _ worldWithNote "storage down" sampleNote sampleUser
      rfl rfl (by decide) (by decide) rfl,
    p13 "n1" "stu1" _ worldWithNote "tx down" sampleNote sampleUser
      rfl rfl (by decide) (Or.inr rfl) rfl,
    p16 "a@vrsec.ac.in" "pw" "N" "cse" "3" _ sampleWorld "auth down" (by decide) rfl,
    p22 "a@vrsec.ac.in" "pw" (.ok none) "auth down" (by decide),
    p27 "stu1" 10 sampleWorld "db down" sampleUser rfl⟩

/-- C1: the deletion endpoint performs the media-host destroy call only
for a request whose Bearer token verifies to the note uploader or to the
configured admin; a request with no Authorization header is answered 401
with no destroy call, and a verified caller who is neither the uploader
nor the admin is answered 403 with no destroy call. -/
theorem c1_endpoint_authorization (adminEmail : String) (req : Server.DeleteReq)
    (notes : List (String × NoteDoc)) (env : Server.EndpointEnv) :
    (req.authorizationHeader = none →
      (Server.deleteNoteFileEndpoint adminEmail req notes env).1.status = 401 ∧
      (Server.deleteNoteFileEndpoint adminEmail req notes env).2 = false) ∧
    (∀ tok d nid note,
      bearerCapture (req.authorizationHeader.getD "") = some tok →
      env.verify tok = .ok d → req.noteId = some nid → ¬(nid = "") →
      List.lookup nid notes = some note → ¬(note.cloudinaryPublicId.getD "" = "") →
      ¬(jsToLower d.email = adminEmail) → ¬(d.uid = note.uploaderId) →
      (Server.deleteNoteFileEndpoint adminEmail req notes env).1.status = 403 ∧
      (Server.deleteNoteFileEndpoint adminEmail req notes env).2 = false) ∧
    ((Server.deleteNoteFileEndpoint adminEmail req notes env).2 = true →
      ∃ tok d nid note,
        bearerCapture (req.authorizationHeader.getD "") = some tok ∧
        env.verify tok = .ok d ∧ req.noteId = some nid ∧
        List.lookup nid notes = some note ∧
        (jsToLower d.email = adminEmail ∨ d.uid = note.uploaderId)) := by
  refine ⟨?_, ?_, ?_⟩
  · intro h
    have hb : bearerCapture "" = none := rfl
    simp [Server.deleteNoteFileEndpoint, h, hb]
  · intro tok d nid note hb hv hnid hne hlk hpid hadm hown
    have hnidb : (nid == "") = false := beq_eq_false_iff_ne.mpr hne
    have hpidb : (note.cloudinaryPublicId.getD "" == "") = false :=
      beq_eq_false_iff_ne.mpr hpid
    have hadmb : (jsToLower d.email == adminEmail) = false := beq_eq_false_iff_ne.mpr hadm
    have hownb : (d.uid == note.uploaderId) = false := beq_eq_false_iff_ne.mpr hown
    simp [Server.deleteNoteFileEndpoint, hb, hv, hnid, hnidb, hlk, hpidb,
      Server.endpointIsAdmin, Server.endpointIsOwner, hadmb, hownb]
  · intro h
    cases hb : bearerCapture (req.authorizationHeader.getD "") with
    | none => simp [Server.deleteNoteFileEndpoint, hb] at h
    | some tok =>
    cases hv : env.verify tok with
    | error e => simp [Server.deleteNoteFileEndpoint, hb, hv] at h
    | ok d =>
    by_cases hnid : (req.noteId.getD "" == "") = true
    · simp [Server.deleteNoteFileEndpoint, hb, hv, hnid] at h
    · cases hlk : List.lookup (req.noteId.getD "") notes with
      | none => simp [Server.deleteNoteFileEndpoint, hb, hv, hnid, hlk] at h
      | some note =>
      by_cases hpid : (note.cloudinaryPublicId.getD "" == "") = true
      · simp [Server.deleteNoteFileEndpoint, hb, hv, hnid, hlk, hpid] at h
      · by_cases hauth :
          (!(Server.endpointIsAdmin d adminEmail) &&
            !(Server.endpointIsOwner d note.uploaderId)) = true
        · simp [Server.deleteNoteFileEndpoint, hb, hv, hnid, hlk, hpid, hauth] at h
        · refine ⟨tok, d, req.noteId.getD "", note, rfl, hv, ?_, hlk, ?_⟩
          · cases hr : req.noteId with
            | none => rw [hr] at hnid; simp at hnid
            | some v => simp [hr]
          · by_cases ha : Server.endpointIsAdmin d adminEmail = true
            · exact Or.inl (by simpa [Server.endpointIsAdmin, beq_iff_eq] using ha)
            · by_cases ho : Server.endpointIsOwner d note.uploaderId = true
              · refine Or.inr ?_
                have := ho
                simp only [Server.endpointIsOwner, Bool.and_eq_true, beq_iff_eq] at this
                exact this.2
              · exact absurd (by
                  simp [Bool.not_eq_true] at ha ho
                  simp [ha, ho]) hauth

/-- An endpoint environment whose token verification yields a caller who
is neither the uploader of `sampleNote` nor the configured admin. -/
def intruderEnv : Server.EndpointEnv :=
  { verify := fun _ => .ok ⟨"intruder", "someone@gmail.com"⟩,
    destroyResult := .ok (some "ok") }

/-- C1 witness: with no Authorization header the endpoint answers 401
without calling destroy, and a verified non-owner non-admin caller is
answered 403 without calling destroy. -/
theorem c1_witness :
    ((Server.deleteNoteFileEndpoint Server.defaultAdminEmail ⟨none, some "n1"⟩
        worldWithNote.notes intruderEnv).1.status = 401 ∧
      (Server.deleteNoteFileEndpoint Server.defaultAdminEmail ⟨none, some "n1"⟩
        worldWithNote.notes intruderEnv).2 = false) ∧
    ((Server.deleteNoteFileEndpoint Server.defaultAdminEmail ⟨some "Bearer tok1", some "n1"⟩
        worldWithNote.notes intruderEnv).1.status = 403 ∧
      (Server.deleteNoteFileEndpoint Server.defaultAdminEmail ⟨some "Bearer tok1", some "n1"⟩
        worldWithNote.notes intruderEnv).2 = false) :=
  ⟨(c1_endpoint_authorization Server.defaultAdminEmail ⟨none, some "n1"⟩
      worldWithNote.notes intruderEnv).1 rfl,
   (c1_endpoint_authorization Server.defaultAdminEmail ⟨some "Bearer tok1", some "n1"⟩
      worldWithNote.notes intruderEnv).2.1 "tok1" ⟨"intruder", "someone@gmail.com"⟩
      "n1" sampleNote rfl rfl rfl (by decide) rfl (by decide) (by decide) (by decide)⟩

/-- C10: on the authorized path, the endpoint answers 200 with the ok
field true exactly when the media-host destroy call reports ok or
not found (so deleting a file already absent from the media host counts
as success), and every other outcome of the destroy call is answered
500. -/
theorem c10_destroy_result_mapping (adminEmail : String) (req : Server.DeleteReq)
    (notes : List (String × NoteDoc)) (env : Server.EndpointEnv)
    (tok : String) (d : Server.Decoded) (nid : String) (note : NoteDoc)
    (hb : bearerCapture (req.authorizationHeader.getD "") = some tok)
    (hv : env.verify tok = .ok d) (hnid : req.noteId = some nid) (hne : ¬(nid = ""))
    (hlk : List.lookup nid notes = some note)
    (hpid : ¬(note.cloudinaryPublicId.getD "" = ""))
    (hauth : (Server.endpointIsAdmin d adminEmail ||
      Server.endpointIsOwner d note.uploaderId) = true) :
    (((Server.deleteNoteFileEndpoint adminEmail req notes env).1.status = 200 ∧
      (Server.deleteNoteFileEndpoint adminEmail req notes env).1.okField = some true) ↔
      (env.destroyResult = .ok (some "ok") ∨ env.destroyResult = .ok (some "not found"))) ∧
    ((Server.deleteNoteFileEndpoint adminEmail req notes env).1.status ≠ 200 →
      (Server.deleteNoteFileEndpoint adminEmail req notes env).1.status = 500) := by
  have hnidb : (nid == "") = false := beq_eq_false_iff_ne.mpr hne
  have hpidb : (note.cloudinaryPublicId.getD "" == "") = false :=
    beq_eq_false_iff_ne.mpr hpid
  have hcond : (!(Server.endpointIsAdmin d adminEmail) &&
      !(Server.endpointIsOwner d note.uploaderId)) = false := by
    rw [← Bool.not_or, hauth]
    rfl
  cases hd : env.destroyResult with
  | error e =>
    simp [Server.deleteNoteFileEndpoint, hb, hv, hnid, hnidb, hlk, hpidb, hcond, hd]
  | ok r =>
    by_cases hro : r = some "ok"
    · simp [Server.deleteNoteFileEndpoint, hb, hv, hnid, hnidb, hlk, hpidb, hcond, hd, hro]
    · by_cases hrn : r = some "not found"
      · simp [Server.deleteNoteFileEndpoint, hb, hv, hnid, hnidb, hlk, hpidb, hcond, hd, hrn]
      · have hrob : (r == some "ok") = false := beq_eq_false_iff_ne.mpr hro
        have hrnb : (r == some "not found") = false := beq_eq_false_iff_ne.mpr hrn
        simp [Server.deleteNoteFileEndpoint, hb, hv, hnid, hnidb, hlk, hpidb, hcond,
          hd, hrob, hrnb, hro, hrn]

/-- An endpoint environment whose token verification yields the uploader
of `sampleNote` and whose destroy call reports that the file was already
absent. -/
def ownerNotFoundEnv : Server.EndpointEnv :=
  { verify := fun _ => .ok ⟨"stu1", "asha@vrsec.ac.in"⟩,
    destroyResult := .ok (some "not found") }

/-- C10 witness: the note owner deleting a file already absent from the
media host gets a 200 response with ok true. -/
theorem c10_witness :
    (Server.deleteNoteFileEndpoint Server.defaultAdminEmail
        ⟨some "Bearer tok1", some "n1"⟩ worldWithNote.notes ownerNotFoundEnv).1.status = 200 ∧
    (Server.deleteNoteFileEndpoint Server.defaultAdminEmail
        ⟨some "Bearer tok1", some "n1"⟩ worldWithNote.notes ownerNotFoundEnv).1.okField =
      some true :=
  (c10_destroy_result_mapping Server.defaultAdminEmail ⟨some "Bearer tok1", some "n1"⟩
      worldWithNote.notes ownerNotFoundEnv "tok1" ⟨"stu1", "asha@vrsec.ac.in"⟩ "n1" sampleNote
      rfl rfl rfl (by decide) rfl (by decide) (by decide)).1.mpr (Or.inr rfl)

/-- A user document whose database role is admin but whose email is not
the configured ADMIN_EMAIL. -/
def roleAdminUser : UserDoc :=
  { uid := "u1", name := "Boss", email := "boss@vrsec.ac.in", role := "admin",
    branch := "ALL", semester := "N/A", points := some 0, notesUploaded := some 0 }

/-- C4 counterexample: for the caller u1 (database role admin, email not
equal to ADMIN_EMAIL) and a note uploaded by u2, the service check
authorizes the deletion while the endpoint check refuses it, so the two
checks do not decide the same predicate. -/
theorem c4_counterexample :
    NotesService.serviceAuthorized {sampleNote with uploaderId := "u2"} "u1" roleAdminUser =
      true ∧
    Server.endpointAuthorized ⟨"u1", "boss@vrsec.ac.in"⟩ {sampleNote with uploaderId := "u2"}
      Server.defaultAdminEmail = false :=
  ⟨by decide, by decide⟩

/-- C4 (amended): the endpoint check and the service check agree exactly
on callers whose admin status is consistent between the two notions (the
lowercased email equals the configured admin email if and only if the
user document role is admin) when the caller uid and the stored
uploaderId are nonempty; in general the two checks differ because the
endpoint tests the email while the service tests the stored role. -/
theorem c4_auth_checks_agree (d : Server.Decoded) (note : NoteDoc)
    (adminEmail : String) (userData : UserDoc)
    (hadmin : (jsToLower d.email == adminEmail) = (userData.role == "admin"))
    (huid : ¬(d.uid = "")) (hup : ¬(note.uploaderId = "")) :
    Server.endpointAuthorized d note adminEmail =
      NotesService.serviceAuthorized note d.uid userData := by
  have huidb : (d.uid == "") = false := beq_eq_false_iff_ne.mpr huid
  have hupb : (note.uploaderId == "") = false := beq_eq_false_iff_ne.mpr hup
  simp only [Server.endpointAuthorized, Server.endpointIsAdmin, Server.endpointIsOwner,
    NotesService.serviceAuthorized, hadmin, huidb, hupb, Bool.not_false, Bool.true_and]
  by_cases h : d.uid = note.uploaderId
  · simp [h, Bool.or_comm]
  · have h1 : (d.uid == note.uploaderId) = false := beq_eq_false_iff_ne.mpr h
    have h2 : (note.uploaderId == d.uid) = false :=
      beq_eq_false_iff_ne.mpr (fun e => h e.symm)
    simp [h1, h2, Bool.or_comm]

/-- C4 witness: for the uploader stu1 herself (consistent non-admin
status), both checks decide the same answer. -/
theorem c4_witness :
    Server.endpointAuthorized ⟨"stu1", "asha@vrsec.ac.in"⟩ sampleNote
      Server.defaultAdminEmail =
      NotesService.serviceAuthorized sampleNote "stu1" sampleUser :=
  c4_auth_checks_agree ⟨"stu1", "asha@vrsec.ac.in"⟩ sampleNote Server.defaultAdminEmail
    sampleUser (by decide) (by decide) (by decide)

/-- The implicit invariant of C8 on one user document: stored points and
notesUploaded (read with the same 0 fallback the code uses) are
nonnegative. -/
def UserInv (u : UserDoc) : Prop :=
  0 ≤ u.points.getD 0 ∧ 0 ≤ u.notesUploaded.getD 0

/-- Every document of the users collection satisfies `UserInv`. -/
def UsersInv (users : String → Option UserDoc) : Prop :=
  ∀ id u, users id = some u → UserInv u

/-- Updating one document with an invariant-satisfying value preserves
the collection invariant. -/
theorem usersInv_setUser {users : String → Option UserDoc} {id : String} {d : UserDoc}
    (h : UsersInv users) (hd : UserInv d) : UsersInv (setUser users id d) := by
  intro k u hk
  unfold setUser at hk
  by_cases hke : (k == id) = true
  · simp [hke] at hk
    exact hk ▸ hd
  · simp [hke] at hk
    exact h k u hk

/-- The users collection of `sampleWorld` satisfies the invariant. -/
theorem sampleWorld_usersInv : UsersInv sampleWorld.users := by
  intro k u hk
  unfold sampleWorld setUser at hk
  by_cases hke : (k == "stu1") = true
  · simp [hke] at hk
    exact hk ▸ ⟨by decide, by decide⟩
  · simp [hke] at hk

/-- C8 (amended): the nonnegativity invariant on points and notesUploaded
is preserved by the four enumerated writers: the two sign-ups initialize
both fields to 0, `uploadNote` adds 10 and 1 to nonnegative values, and
`deleteNote` clamps its subtraction with max 0 — for every platform
outcome, including partial failures. -/
theorem c8_invariant_preserved (w : World) (hw : UsersInv w.users) :
    (∀ email pw name b s env,
      UsersInv (AuthService.signUpStudent email pw name b s env w).2.users) ∧
    (∀ email pw name env,
      UsersInv (AuthService.createAdmin email pw name env w).2.users) ∧
    (∀ nd env, UsersInv (NotesService.uploadNote nd env w).2.users) ∧
    (∀ noteId userId env,
      UsersInv (NotesService.deleteNote noteId userId env w).2.users) := by
  refine ⟨?_, ?_, ?_, ?_⟩
  · intro email pw name b s env
    unfold AuthService.signUpStudent
    split
    · exact hw
    · split
      · exact hw
      · split
        · exact hw
        · split
          · exact hw
          · exact usersInv_setUser hw ⟨by simp, by simp⟩
  · intro email pw name env
    unfold AuthService.createAdmin
    split
    · exact hw
    · split
      · exact hw
      · split
        · exact hw
        · split
          · exact hw
          · exact usersInv_setUser hw ⟨by simp, by simp⟩
  · intro nd env
    unfold NotesService.uploadNote
    split
    · exact hw
    · split
      · exact hw
      · split
        · exact hw
        · split
          · exact hw
          · unfold NotesService.runUploadTransaction
            split
            · exact hw
            · split
              · dsimp only
                split
                · exact hw
                · rename_i u heq
                  obtain ⟨hp, hn⟩ := hw _ u heq
                  refine usersInv_setUser hw ⟨?_, ?_⟩
                  · simp only [Option.getD_some]
                    omega
                  · simp only [Option.getD_some]
                    omega
              · exact hw
  · intro noteId userId env
    unfold NotesService.deleteNote
    split
    · exact hw
    · split
      · exact hw
      · split
        · exact hw
        · unfold NotesService.runDeleteTransaction
          split
          · unfold NotesService.deleteCommit
            split
            · exact hw
            · split
              · dsimp only
                split
                · exact hw
                · exact usersInv_setUser hw ⟨le_max_left 0 _, le_max_left 0 _⟩
              · exact hw
          · split
            · exact hw
            · unfold NotesService.deleteCommit
              split
              · exact hw
              · split
                · dsimp only
                  split
                  · exact hw
                  · exact usersInv_setUser hw ⟨le_max_left 0 _, le_max_left 0 _⟩
                · exact hw

/-- C8 counterexample: `AuthService.addUserPoints` also writes user
documents but performs no clamping, so calling it with a negative points
argument drives the stored points below zero from an invariant-satisfying
world — the invariant is not preserved by every user-writing operation. -/
theorem c8_counterexample :
    UsersInv sampleWorld.users ∧
    (AuthService.addUserPoints "stu1" (-20) (.ok ()) sampleWorld).2.users "stu1" =
      some {sampleUser with points := some (-20), notesUploaded := some 1} ∧
    ¬ UsersInv (AuthService.addUserPoints "stu1" (-20) (.ok ()) sampleWorld).2.users := by
  refine ⟨sampleWorld_usersInv, rfl, ?_⟩
  intro hInv
  exact absurd (hInv "stu1" _ rfl).1 (by decide)

/-- C8 witness: from the concrete invariant-satisfying world, an upload
and a deletion both leave every stored points value nonnegative. -/
theorem c8_witness :
    UsersInv (NotesService.uploadNote sampleNoteData okUploadEnv sampleWorld).2.users ∧
    UsersInv (NotesService.deleteNote "n1" "stu1" ⟨.ok (), .ok ()⟩ worldWithNote).2.users :=
  ⟨(c8_invariant_preserved sampleWorld sampleWorld_usersInv).2.2.1 sampleNoteData okUploadEnv,
   (c8_invariant_preserved worldWithNote sampleWorld_usersInv).2.2.2 "n1" "stu1" ⟨.ok (), .ok ()⟩⟩
